/-
Verification of the register-batching, transport, bit-editing and
command-queue core of the com.sortedbits.blauhoff Modbus/Solarman
integration.

The TypeScript sources are embedded shallowly:
  * `ModbusRegister`, `RegisterType`, `AccessMode`, `RegisterDataType`
    mirror the catalog model (src/repositories/device-repository/models).
  * Buffers are `List Nat` (one entry per byte); `Buffer.subarray`,
    `Buffer.set`, `writeUInt16BE/LE` are modelled on lists.
  * Network I/O is modelled by explicit outcome parameters and by
    effect traces (`WireEffect`), so "no I/O happens" is `trace = []`.
  * JS numbers are embedded as `Int` where subtraction occurs
    (JS arithmetic is exact in the ranges used) and as `Nat` for
    indices and lengths.
-/
import Mathlib

namespace Blauhoff

/-- Register class (src/repositories/device-repository/models/enum/register-type). -/
inductive RegisterType where
  | input
  | holding
deriving DecidableEq, Repr

/-- Access mode (src/repositories/device-repository/models/enum/access-mode). -/
inductive AccessMode where
  | readOnly
  | writeOnly
  | readWrite
deriving DecidableEq, Repr

/-- Data types of registers (src/repositories/device-repository/models/enum/register-datatype). -/
inductive RegisterDataType where
  | uint16
  | int16
  | uint32
  | int32
  | string
deriving DecidableEq, Repr

/-- The fields of `ModbusRegister`
(src/repositories/device-repository/models/modbus-register) used by the
transports: `address`, `length` (in 16-bit words), `dataType`,
`registerType` and `accessMode`. -/
structure ModbusRegister where
  address : Nat
  length : Nat
  dataType : RegisterDataType
  registerType : RegisterType
  accessMode : AccessMode
deriving DecidableEq, Repr

/-- The wire read length computed by `ModbusAPI2.readBatch`
(src/api/modbus/modbus-api2.ts line 365):
`batch.length > 1 ? lastRegister.address + lastRegister.length - firstRegister.address : batch[0].length`.
Empty batches return before the length is computed; they are mapped to 0. -/
def ModbusAPI2.readBatchLength (batch : List ModbusRegister) : Int :=
  match batch.head?, batch.getLast? with
  | some first, some last =>
    if batch.length > 1 then
      (last.address : Int) + (last.length : Int) - (first.address : Int)
    else
      (first.length : Int)
  | _, _ => 0

/-- The wire read length computed by `SolarmanAPI2.readBatch`
(src/api/solarman/solarman-api2.ts line 247):
`lastRegister.address + lastRegister.length - firstRegister.address + 1`.
Empty batches return before the length is computed; they are mapped to 0. -/
def SolarmanAPI2.readBatchLength (batch : List ModbusRegister) : Int :=
  match batch.head?, batch.getLast? with
  | some first, some last =>
    (last.address : Int) + (last.length : Int) - (first.address : Int) + 1
  | _, _ => 0

/-- The length the spec attributes to a batch read:
(last register address + last register length) − (first register address). -/
def specBatchLength (batch : List ModbusRegister) : Int :=
  match batch.head?, batch.getLast? with
  | some first, some last =>
    (last.address : Int) + (last.length : Int) - (first.address : Int)
  | _, _ => 0

/-- A concrete register used as a counterexample input. -/
def cexRegister : ModbusRegister :=
  { address := 1, length := 1, dataType := .uint16,
    registerType := .input, accessMode := .readOnly }

/-- Node's `Buffer.subarray(start, stop)`: the bytes in `[start, stop)`,
clamped to the buffer's bounds. -/
def subarray (b : List Nat) (start stop : Nat) : List Nat :=
  (b.take stop).drop start

/-- The per-register response slices produced by the loop in
`ModbusAPI2.readBatch` (src/api/modbus/modbus-api2.ts lines 370–391) in the
multi-register case: `startOffset` begins at 0; each register's buffer is
`results.buffer.subarray(startOffset, startOffset + register.length * 2)`;
then `startOffset` advances to that end offset. -/
def ModbusAPI2.readBatchSlices (response : List Nat) :
    Nat → List ModbusRegister → List (List Nat)
  | _, [] => []
  | startOffset, r :: rest =>
    subarray response startOffset (startOffset + r.length * 2) ::
      ModbusAPI2.readBatchSlices response (startOffset + r.length * 2) rest

/-- The buffer handed to the converter for each register of a batch in
`ModbusAPI2.readBatch` (line 373):
`batch.length > 1 ? results.buffer.subarray(startOffset, end) : results.buffer`. -/
def ModbusAPI2.readBatchBuffers (batch : List ModbusRegister) (response : List Nat) :
    List (List Nat) :=
  if batch.length > 1 then ModbusAPI2.readBatchSlices response 0 batch
  else batch.map (fun _ => response)

/-- The offset the spec attributes to a register of a batch: the sum of the
lengths of the preceding registers in the batch, times 2 bytes. -/
def precedingOffset (batch : List ModbusRegister) (i : Nat) : Nat :=
  2 * ((batch.take i).map (fun r => r.length)).sum

/-- Counterexample batch for the slicing claim: two length-1 registers at
addresses 0 and 2, so the wire read covers 3 words (6 bytes) and the last
register's fixed slice ends 2 bytes before the end of the response. -/
def cexBatch2 : List ModbusRegister :=
  [{ cexRegister with address := 0 }, { cexRegister with address := 2 }]

/-- A concrete 6-byte response buffer for `cexBatch2`. -/
def cexResponse : List Nat := [10, 11, 12, 13, 14, 15]

/-- State of `CommandQueue` (src/unnamed/part_006, helpers/command-queue):
`queue` is the JS array of queued command names — `delete this.queue[index]`
leaves a hole in a JS array, modelled as `none` — and `busy` is the
single-flight flag toggled by `setBusy`. -/
structure QueueState where
  queue : List (Option String)
  busy : Bool
deriving DecidableEq, Repr

/-- `this.queue.filter(t => t === command).length`: a hole (`undefined`)
never equals a string, so only `some command` entries count. -/
def countInQueue (q : List (Option String)) (command : String) : Nat :=
  (q.filter (fun t => t = some command)).length

/-- `const index = this.queue.indexOf(command); if (index > -1) delete this.queue[index]`:
the first `some command` entry is replaced by a hole. -/
def deleteFirstInQueue : List (Option String) → String → List (Option String)
  | [], _ => []
  | t :: rest, command =>
    if t = some command then none :: rest
    else t :: deleteFirstInQueue rest command

/-- `CommandQueue.wait(command, maxOccurences)`: when the number of equal
command names already queued has reached `maxOccurences`, it returns `false`
at once, touching neither the queue nor `busy` (modelled as `none`);
otherwise it pushes the command, polls `while (this.busy)` — the embedding
models the quiescent entry, where `busy` is `false` and the loop body never
runs — then removes the queue entry and sets `busy := true`. -/
def CommandQueue.wait (s : QueueState) (command : String) (maxOccurences : Nat) :
    Option QueueState :=
  let commandsInQueue := countInQueue s.queue command
  if commandsInQueue ≥ maxOccurences then none
  else
    let q1 := s.queue ++ [some command]
    let q2 := deleteFirstInQueue q1 command
    some { queue := q2, busy := true }

/-- One decoded reading pushed by the transports
(`RegisterOutput` of src/api/iapi.ts, with the parse configuration elided). -/
structure RegisterOutput where
  register : ModbusRegister
  value : Int
  buffer : List Nat
deriving DecidableEq, Repr

/-- The inner per-batch `try`/`catch` of `ModbusAPI2.readRegisters` (lines
79–96): a batch that reads and decodes gives its outputs, a batch that
throws is logged and contributes nothing. -/
def batchOutcomeResults : Except String (List RegisterOutput) → List RegisterOutput
  | .ok outputs => outputs
  | .error _ => []

/-- `ModbusAPI2.readRegisters` (src/api/modbus/modbus-api2.ts lines 65–108):
admission via `queue.wait('readRegisters', 2)` — refusal returns `[]` with
the state untouched; then connect (a throwing connect is caught by the outer
`catch` with no batch read), the input batches then the holding batches, each
under its own `catch`; the `finally` block runs `queue.setBusy(false)`.
The per-batch wire reads are the `Except` outcome parameters. -/
def ModbusAPI2.readRegisters (s : QueueState) (connectOk : Bool)
    (inputBatches holdingBatches : List (Except String (List RegisterOutput))) :
    List RegisterOutput × QueueState :=
  match CommandQueue.wait s "readRegisters" 2 with
  | none => ([], s)
  | some s1 =>
    let results :=
      if connectOk then
        (inputBatches.map batchOutcomeResults).flatten ++
          (holdingBatches.map batchOutcomeResults).flatten
      else []
    (results, { s1 with busy := false })

/-- `SolarmanAPI2.readRegisters` (src/api/solarman/solarman-api2.ts lines
202–221): `waitInQueue('readRegisters')` polls `while (this.busy)` — the
embedding models a call entering with `busy = false` — then sets
`busy := true`; the input batches and then the holding batches are read
(`SolarmanAPI2.readBatch` catches its own errors and returns `[]`, so batch
outcomes are plain lists). No statement in `readRegisters` or its callees
ever resets `busy`, so the returned flag is the final `busy` value. -/
def SolarmanAPI2.readRegisters (inputBatches holdingBatches : List (List RegisterOutput)) :
    List RegisterOutput × Bool :=
  (inputBatches.flatten ++ holdingBatches.flatten, true)

/-- A value passed to `writeRegisters`: either a raw buffer (skips
validation) or a number. -/
inductive WireValue where
  | buf (bytes : List Nat)
  | num (value : Int)
deriving DecidableEq, Repr

/-- Externally visible effects of the write path; "no network I/O" is an
empty effect list. -/
inductive WireEffect where
  | queueWait (command : String)
  | connect
  | writeRequest (address : Nat) (values : List WireValue)
deriving DecidableEq, Repr

/-- The validation loop at the top of `writeRegisters`
(modbus lines 115–124, solarman lines 66–74): buffers skip validation, and
the first non-buffer value rejected by `validateValue` makes the call return
`false`. `validateValue` (src/helpers/validate-value.ts, not under src/) is
a parameter of the embedding. -/
def validateAll (validate : Int → RegisterDataType → Bool)
    (dataType : RegisterDataType) : List WireValue → Bool
  | [] => true
  | .buf _ :: rest => validateAll validate dataType rest
  | .num v :: rest => validate v dataType && validateAll validate dataType rest

/-- `ModbusAPI2.writeRegisters` (lines 110–144): a `ReadOnly` register
returns `false` at once; then the validation loop, returning `false` on the
first invalid value; only then `queue.wait('writeRegisters', 999)` (its
result is not awaited and is discarded), `connect()`,
`client.writeRegisters(address, values)` — `wireOk` is that wire write's
outcome — and the `finally` block runs `queue.setBusy(false)`. -/
def ModbusAPI2.writeRegisters (validate : Int → RegisterDataType → Bool)
    (wireOk : Bool) (s : QueueState) (register : ModbusRegister)
    (values : List WireValue) : Bool × List WireEffect × QueueState :=
  if register.accessMode = AccessMode.readOnly then (false, [], s)
  else if validateAll validate register.dataType values = false then (false, [], s)
  else
    let s1 := (CommandQueue.wait s "writeRegisters" 999).getD s
    (wireOk,
      [.queueWait "writeRegisters", .connect, .writeRequest register.address values],
      { s1 with busy := false })

/-- `ModbusAPI2.writeRegister` (line 158): delegates to `writeRegisters`
with the single value. -/
def ModbusAPI2.writeRegister (validate : Int → RegisterDataType → Bool)
    (wireOk : Bool) (s : QueueState) (register : ModbusRegister)
    (value : WireValue) : Bool × List WireEffect × QueueState :=
  ModbusAPI2.writeRegisters validate wireOk s register [value]

/-- `SolarmanAPI2.writeRegisters` (lines 65–85): the validation loop,
returning `false` on the first invalid value before any request is built or
sent; then `createModbusWriteRequest` and `performRequest` (a fresh socket
and one frame write), whose outcome is `wireOk`. -/
def SolarmanAPI2.writeRegisters (validate : Int → RegisterDataType → Bool)
    (wireOk : Bool) (register : ModbusRegister) (values : List WireValue) :
    Bool × List WireEffect :=
  if validateAll validate register.dataType values = false then (false, [])
  else
    (wireOk, [.connect, .writeRequest register.address values])

/-- A read-write variant of `cexRegister`, for exercising the validation
branch of the write path. -/
def rwRegister : ModbusRegister :=
  { cexRegister with accessMode := .readWrite }

/-- `ModbusAPI2.writeBitsToRegister` (src/api/modbus/modbus-api2.ts lines
301–322): `readBuffer` is the prior `readAddressWithoutConversion` result
(`none` when that read failed and the method returns false); a bit span
reaching past the buffer (`readBuffer.length * 8 < bitIndex + bits.length`)
returns false before anything is written; otherwise the target byte index is
`readBuffer.length - 1 - Math.floor(bitIndex / 8)`, the in-byte start bit is
`bitIndex % 8`, and the buffer modified by `writeBitsToBuffer` is written
back — `wireOk` is that write's outcome. The second component records the
issued write's byte index and start bit; `none` means no write was issued. -/
def ModbusAPI2.writeBitsToRegister (readBuffer : Option (List Nat)) (wireOk : Bool)
    (bits : List Nat) (bitIndex : Nat) : Bool × Option (Int × Nat) :=
  match readBuffer with
  | none => (false, none)
  | some buf =>
    if buf.length * 8 < bitIndex + bits.length then (false, none)
    else
      let byteIndex : Int := (buf.length : Int) - 1 - ((bitIndex / 8 : Nat) : Int)
      let startBitIndex := bitIndex % 8
      (wireOk, some (byteIndex, startBitIndex))

/-- `SolarmanAPI2.writeBitsToRegister` (src/api/solarman/solarman-api2.ts
lines 103–124): same read and same range check; on success the buffer
modified by `writeBitsToBufferBE` is written back through
`writeBufferRegister`, whose outcome is `wireOk`. The second component
records whether a write was issued. -/
def SolarmanAPI2.writeBitsToRegister (readBuffer : Option (List Nat)) (wireOk : Bool)
    (bits : List Nat) (bitIndex : Nat) : Bool × Bool :=
  match readBuffer with
  | none => (false, false)
  | some buf =>
    if buf.length * 8 < bitIndex + bits.length then (false, false)
    else (wireOk, true)

/-- The write steps of the Deye sun-xk-sg01hp3-eu-am2 timeslot actions. -/
inductive TimeslotWrite where
  | charge
  | power
  | battery
  | time
deriving DecidableEq, Repr

/-- `DeyeSunXKSG01HP3.setTimeOfUseTimeslotParameters`
(src/repositories/device-repository/devices/deye/sun-xk-sg01hp3-eu-am2,
lines 390–461), from the point where the four holding registers have been
resolved: it writes charge, then power, then battery, then time, each
through `client.writeRegister` with a fixed delay between steps; a step
reporting `false` throws at once, so no later step is issued and nothing
already written is undone. `writeOk` gives each wire write's reported
outcome; the result is the list of steps issued, in order, and whether the
action completed without throwing. -/
def DeyeSunXKSG01HP3.setTimeOfUseTimeslotParameters (writeOk : TimeslotWrite → Bool) :
    List TimeslotWrite × Bool :=
  if writeOk .charge = false then ([.charge], false)
  else if writeOk .power = false then ([.charge, .power], false)
  else if writeOk .battery = false then ([.charge, .power, .battery], false)
  else if writeOk .time = false then ([.charge, .power, .battery, .time], false)
  else ([.charge, .power, .battery, .time], true)

/-- `DeyeSunXKSG01HP3.setAllTimeslotParameters` (same file, lines 343–388),
from the point where the three registers have been resolved: it writes
charge, then power, then battery, through `client.writeRegisters`, throwing
on the first step that reports `false`. -/
def DeyeSunXKSG01HP3.setAllTimeslotParameters (writeOk : TimeslotWrite → Bool) :
    List TimeslotWrite × Bool :=
  if writeOk .charge = false then ([.charge], false)
  else if writeOk .power = false then ([.charge, .power], false)
  else if writeOk .battery = false then ([.charge, .power, .battery], false)
  else ([.charge, .power, .battery], true)

/-- The fixed write order of `setTimeOfUseTimeslotParameters`. -/
def timeOfUseSequence : List TimeslotWrite := [.charge, .power, .battery, .time]

/-- The fixed write order of `setAllTimeslotParameters`. -/
def allTimeslotSequence : List TimeslotWrite := [.charge, .power, .battery]

/-- Node's `buffer.writeUInt8(v, i)` on a byte-list buffer. -/
def writeUInt8 (b : List Nat) (v : Nat) (i : Nat) : List Nat :=
  b.set i (v % 256)

/-- Node's `buffer.writeUInt16BE(v, i)`: high byte at `i`, low byte at `i + 1`. -/
def writeUInt16BE (b : List Nat) (v : Nat) (i : Nat) : List Nat :=
  (b.set i (v / 256 % 256)).set (i + 1) (v % 256)

/-- Node's `buffer.writeUInt16LE(v, i)`: low byte at `i`, high byte at `i + 1`. -/
def writeUInt16LE (b : List Nat) (v : Nat) (i : Nat) : List Nat :=
  (b.set i (v % 256)).set (i + 1) (v / 256 % 256)

/-- One shift step of the Modbus CRC16: shift right, folding in the
polynomial 0xA001 when the bit shifted out was set. -/
def crc16Round (crc : Nat) : Nat :=
  if crc % 2 = 1 then (crc / 2) ^^^ 0xA001 else crc / 2

/-- Fold one byte into the Modbus CRC16: xor it in, then eight shift steps. -/
def crc16Byte (crc byte : Nat) : Nat :=
  crc16Round^[8] (crc ^^^ byte)

/-- Modelled from the spec: `calculateBufferCRC`
(src/api/solarman/helpers/buffer-crc-calculator.ts is not under src/, only
its callers are). Spec §4.6: "CRC16 (Modbus variant, polynomial 0xA001) is
computed over every byte except the trailing 2-byte CRC field itself" — the
standard Modbus CRC16 starts at 0xFFFF and folds in each byte in turn. -/
def calculateBufferCRC (bytes : List Nat) : Nat :=
  bytes.foldl crc16Byte 0xFFFF

/-- Node's `src.copy(target, targetStart)`: overwrite `target` from
`targetStart` on with the bytes of `src`, truncated at `target`'s end. -/
def bufferCopy (target src : List Nat) (targetStart : Nat) : List Nat :=
  target.take targetStart ++ src.take (target.length - targetStart) ++
    target.drop (targetStart + src.length)

/-- `SolarmanAPI2.createModbusFrame` (src/api/solarman/solarman-api2.ts lines
393–404): an 8-byte buffer holding unit id, function code, big-endian start
address, big-endian word count, and a little-endian CRC16 over the first 6
bytes (`buffer.subarray(0, -2)`). -/
def SolarmanAPI2.createModbusFrame (unitId : Nat) (startRegister : ModbusRegister)
    (length : Nat) (command : Nat) : List Nat :=
  let codeLength := 6
  let b0 := List.replicate (codeLength + 2) 0
  let b1 := writeUInt8 b0 unitId 0
  let b2 := writeUInt8 b1 command 1
  let b3 := writeUInt16BE b2 startRegister.address 2
  let b4 := writeUInt16BE b3 length 4
  writeUInt16LE b4 (calculateBufferCRC (b4.take (b4.length - 2))) codeLength

/-- `SolarmanAPI2.createModbusReadRequest` (lines 386–390): function code
0x04 for input registers, 0x03 for holding registers. -/
def SolarmanAPI2.createModbusReadRequest (unitId : Nat)
    (startRegister : ModbusRegister) (length : Nat) : List Nat :=
  let command := if startRegister.registerType = RegisterType.input then 0x04 else 0x03
  SolarmanAPI2.createModbusFrame unitId startRegister length command

/-- `SolarmanAPI2.createModbusWriteRequest` (lines 350–384): function code
0x10, big-endian address, big-endian register count, payload byte count,
the payload (a raw buffer copied as-is, or each number encoded by
`bufferForDataType` and concatenated), and a little-endian CRC16 over all
preceding bytes. `lengthForDataType` and `bufferForDataType`
(src/repositories/device-repository/models/enum/register-datatype.ts, not
under src/) enter as the parameters `dataTypeLength` and `encodeValue`. -/
def SolarmanAPI2.createModbusWriteRequest (unitId : Nat) (dataTypeLength : Nat)
    (encodeValue : Int → List Nat) (register : ModbusRegister)
    (value : List Nat ⊕ List Int) : List Nat :=
  let dataLength := match value with
    | .inl bufferValue => bufferValue.length / 2
    | .inr numbers => numbers.length
  let codeLength := 7 + dataTypeLength * dataLength
  let b0 := List.replicate (codeLength + 2) 0
  let b1 := writeUInt8 b0 unitId 0
  let b2 := writeUInt8 b1 16 1
  let b3 := writeUInt16BE b2 register.address 2
  let b4 := writeUInt16BE b3 dataLength 4
  let b5 := writeUInt8 b4 (dataLength * 2) 6
  let b6 := match value with
    | .inl bufferValue => bufferCopy b5 bufferValue 7
    | .inr numbers => bufferCopy b5 ((numbers.map encodeValue).flatten) 7
  writeUInt16LE b6 (calculateBufferCRC (b6.take (b6.length - 2))) codeLength

end Blauhoff

namespace Blauhoff

/-- C1 counterexample: on the singleton batch `[{address 1, length 1}]` the
Solarman transport requests a wire length of 2, while
(last address + last length) − (first address) = 1; so the claim, which
asserts the equality for the Solarman transport as well, is false. -/
theorem solarman_batch_length_cex :
    SolarmanAPI2.readBatchLength [cexRegister] ≠ specBatchLength [cexRegister] := by
  decide

/-- C1 (amended): for every non-empty batch, `ModbusAPI2.readBatch` requests
exactly (last address + last length) − (first address) registers, while
`SolarmanAPI2.readBatch` requests that quantity plus one. -/
theorem readBatch_wire_length (batch : List ModbusRegister) (h : batch ≠ []) :
    ModbusAPI2.readBatchLength batch = specBatchLength batch ∧
    SolarmanAPI2.readBatchLength batch = specBatchLength batch + 1 := by
  match batch, h with
  | [r], _ =>
    constructor
    · simp [ModbusAPI2.readBatchLength, specBatchLength]
    · simp [SolarmanAPI2.readBatchLength, specBatchLength]
  | r :: r' :: rest, _ =>
    have hh : (r :: r' :: rest).head? = some r := rfl
    have hl : ∃ last, (r :: r' :: rest).getLast? = some last := by
      exact ⟨(r :: r' :: rest).getLast (by simp), List.getLast?_eq_getLast _ _⟩
    obtain ⟨last, hlast⟩ := hl
    constructor
    · simp [ModbusAPI2.readBatchLength, specBatchLength, hh, hlast]
    · simp [SolarmanAPI2.readBatchLength, specBatchLength, hh, hlast]

/-- C1 witness: the amended statement instantiated at a concrete two-register
batch. -/
theorem readBatch_wire_length_witness :
    ModbusAPI2.readBatchLength [cexRegister, { cexRegister with address := 4 }] =
      specBatchLength [cexRegister, { cexRegister with address := 4 }] ∧
    SolarmanAPI2.readBatchLength [cexRegister, { cexRegister with address := 4 }] =
      specBatchLength [cexRegister, { cexRegister with address := 4 }] + 1 :=
  readBatch_wire_length _ (by decide)

/-- Helper for C2: each slice produced by the `readBatch` loop starts at the
running offset plus twice the sum of the lengths of the preceding registers,
and spans exactly `2 * length` bytes (clamped by `subarray`). -/
theorem readBatchSlices_get (response : List Nat) (batch : List ModbusRegister)
    (s : Nat) (i : Nat) (h : i < batch.length) :
    (ModbusAPI2.readBatchSlices response s batch)[i]? =
      some (subarray response (s + precedingOffset batch i)
        (s + precedingOffset batch i + 2 * (batch.get ⟨i, h⟩).length)) := by
  induction batch generalizing s i with
  | nil => simp at h
  | cons r rest ih =>
    cases i with
    | zero =>
      simp [ModbusAPI2.readBatchSlices, precedingOffset, Nat.mul_comm]
    | succ j =>
      have hj : j < rest.length := by simpa using h
      have := ih (s + r.length * 2) j hj
      simp only [ModbusAPI2.readBatchSlices, List.getElem?_cons_succ, this]
      have hoff : s + r.length * 2 + precedingOffset rest j =
          s + precedingOffset (r :: rest) (j + 1) := by
        simp [precedingOffset, Nat.mul_add, Nat.mul_comm]
        ring
      rw [hoff]
      rfl

/-- C2 counterexample: for the two-register batch `cexBatch2` (addresses 0 and
2, each one word long) and the 6-byte response `cexResponse`, the last
register's buffer is the fixed 2-byte slice `[12, 13]`, not the remainder
`[12, 13, 14, 15]` of the response from its offset; so the claim's "the last
register receives the remainder of the buffer" is false on the code. -/
theorem readBatch_last_slice_cex :
    (ModbusAPI2.readBatchBuffers cexBatch2 cexResponse).getLast? ≠
      some (cexResponse.drop (precedingOffset cexBatch2 1)) := by
  decide

/-- C2 (amended): in a multi-register batch, every register — the last one
included — is decoded from the slice of the response that starts at
2 × (sum of the lengths of the preceding registers in the batch) bytes and
spans 2 × its own length bytes (clamped to the end of the response); the last
register does not receive the remainder of the buffer. -/
theorem readBatch_buffer_offsets (batch : List ModbusRegister) (response : List Nat)
    (hlen : 1 < batch.length) (i : Nat) (h : i < batch.length) :
    (ModbusAPI2.readBatchBuffers batch response)[i]? =
      some (subarray response (precedingOffset batch i)
        (precedingOffset batch i + 2 * (batch.get ⟨i, h⟩).length)) := by
  have := readBatchSlices_get response batch 0 i h
  simpa [ModbusAPI2.readBatchBuffers, hlen] using this

/-- C2 witness: the amended statement instantiated on `cexBatch2` and
`cexResponse` at index 1. -/
theorem readBatch_buffer_offsets_witness :
    (1 < cexBatch2.length) ∧
    (ModbusAPI2.readBatchBuffers cexBatch2 cexResponse)[1]? =
      some (subarray cexResponse (precedingOffset cexBatch2 1)
        (precedingOffset cexBatch2 1 + 2 * (cexBatch2.get ⟨1, by decide⟩).length)) :=
  ⟨by decide, readBatch_buffer_offsets cexBatch2 cexResponse (by decide) 1 (by decide)⟩

/-- C3: `SolarmanAPI2.readRegisters` acquires the queue by setting `busy`
in `waitInQueue` but no code path ever resets it, so after any completed
read cycle the flag is still `true` and every later `readRegisters` call
polls forever; `ModbusAPI2.readRegisters`, by contrast, leaves `busy`
`false` through its `finally` block whatever the batch outcomes. -/
theorem solarman_queue_never_released
    (inputBatches holdingBatches : List (List RegisterOutput))
    (connectOk : Bool) (ib hb : List (Except String (List RegisterOutput))) :
    (SolarmanAPI2.readRegisters inputBatches holdingBatches).snd = true ∧
    (ModbusAPI2.readRegisters ⟨[], false⟩ connectOk ib hb).snd.busy = false := by
  exact ⟨rfl, rfl⟩

/-- Helper: a rejected non-buffer value makes the validation loop of
`writeRegisters` return false. -/
theorem validateAll_false_of_invalid (validate : Int → RegisterDataType → Bool)
    (dt : RegisterDataType) (n : Int) :
    ∀ values : List WireValue, WireValue.num n ∈ values → validate n dt = false →
      validateAll validate dt values = false := by
  intro values
  induction values with
  | nil => intro h; simp at h
  | cons v rest ih =>
    intro hmem hval
    cases v with
    | buf b =>
      have hrest : WireValue.num n ∈ rest := by
        rcases List.mem_cons.mp hmem with heq | hr
        · exact absurd heq (by simp)
        · exact hr
      simp [validateAll, ih hrest hval]
    | num m =>
      rcases List.mem_cons.mp hmem with heq | hr
      · injection heq with hnm
        subst hnm
        simp [validateAll, hval]
      · simp [validateAll, ih hr hval]

/-- C4: if any non-buffer value in a `writeRegisters` call fails validation,
both `ModbusAPI2.writeRegisters` and `SolarmanAPI2.writeRegisters` return
false with an empty effect trace: no connection is opened and no write
request is sent. -/
theorem write_invalid_value_fails_closed (validate : Int → RegisterDataType → Bool)
    (wireOk wireOk' : Bool) (s : QueueState) (register : ModbusRegister)
    (values : List WireValue) (n : Int)
    (hmem : WireValue.num n ∈ values)
    (hval : validate n register.dataType = false) :
    ModbusAPI2.writeRegisters validate wireOk s register values = (false, [], s) ∧
    SolarmanAPI2.writeRegisters validate wireOk' register values = (false, []) := by
  have hv := validateAll_false_of_invalid validate register.dataType n values hmem hval
  constructor
  · by_cases hro : register.accessMode = AccessMode.readOnly
    · simp [ModbusAPI2.writeRegisters, hro]
    · simp [ModbusAPI2.writeRegisters, hro, hv]
  · simp [SolarmanAPI2.writeRegisters, hv]

/-- C4 witness: a rejecting validator on the single value 5 for a read-write
register makes both transports fail closed. -/
theorem write_invalid_value_fails_closed_witness :
    WireValue.num 5 ∈ [WireValue.num 5] ∧
    ModbusAPI2.writeRegisters (fun _ _ => false) true ⟨[], false⟩ rwRegister
      [WireValue.num 5] = (false, [], ⟨[], false⟩) ∧
    SolarmanAPI2.writeRegisters (fun _ _ => false) true rwRegister
      [WireValue.num 5] = (false, []) :=
  ⟨by simp,
    (write_invalid_value_fails_closed (fun _ _ => false) true true ⟨[], false⟩
      rwRegister [WireValue.num 5] 5 (by simp) rfl).1,
    (write_invalid_value_fails_closed (fun _ _ => false) true true ⟨[], false⟩
      rwRegister [WireValue.num 5] 5 (by simp) rfl).2⟩

/-- C5: when one input batch throws, `ModbusAPI2.readRegisters` still
returns the decoded outputs of every other batch, input and holding, in
order — the failing batch contributes nothing and aborts nothing. -/
theorem readRegisters_partial_failure (s : QueueState) (hbusy : s.busy = false)
    (hcount : countInQueue s.queue "readRegisters" < 2)
    (pre post holding : List (Except String (List RegisterOutput))) (e : String) :
    (ModbusAPI2.readRegisters s true (pre ++ Except.error e :: post) holding).fst =
      (pre.map batchOutcomeResults).flatten ++ ((post.map batchOutcomeResults).flatten ++
        (holding.map batchOutcomeResults).flatten) := by
  unfold ModbusAPI2.readRegisters CommandQueue.wait
  simp [Nat.not_le.mpr hcount, batchOutcomeResults]

/-- C5 witness: a three-batch cycle whose middle input batch throws still
yields the outputs of the first input batch and of the holding batch. -/
theorem readRegisters_partial_failure_witness :
    (⟨[], false⟩ : QueueState).busy = false ∧
    countInQueue (⟨[], false⟩ : QueueState).queue "readRegisters" < 2 ∧
    (ModbusAPI2.readRegisters ⟨[], false⟩ true
        ([Except.ok [⟨cexRegister, 1, []⟩]] ++ Except.error "boom" ::
          [Except.ok [⟨cexRegister, 2, []⟩]])
        [Except.ok [⟨cexRegister, 3, []⟩]]).fst =
      ([Except.ok [⟨cexRegister, 1, []⟩]].map batchOutcomeResults).flatten ++
        (([Except.ok [⟨cexRegister, 2, []⟩]].map batchOutcomeResults).flatten ++
          ([Except.ok [⟨cexRegister, 3, []⟩]].map batchOutcomeResults).flatten) :=
  ⟨rfl, by decide,
    readRegisters_partial_failure ⟨[], false⟩ rfl (by decide)
      [Except.ok [⟨cexRegister, 1, []⟩]] [Except.ok [⟨cexRegister, 2, []⟩]]
      [Except.ok [⟨cexRegister, 3, []⟩]] "boom"⟩

/-- C6: once `maxOccurences` entries with the same command name are queued,
`CommandQueue.wait` refuses admission at once — no queuing, no polling, the
state untouched — and `ModbusAPI2.readRegisters`, which asks for admission
with a maximum of 2, then returns the empty result list with its queue state
unchanged. -/
theorem queue_saturation_fail_fast (s : QueueState) (command : String)
    (maxOccurences : Nat)
    (h : countInQueue s.queue command ≥ maxOccurences)
    (h2 : countInQueue s.queue "readRegisters" ≥ 2)
    (connectOk : Bool) (ib hb : List (Except String (List RegisterOutput))) :
    CommandQueue.wait s command maxOccurences = none ∧
    ModbusAPI2.readRegisters s connectOk ib hb = ([], s) := by
  constructor
  · simp [CommandQueue.wait, h]
  · simp [ModbusAPI2.readRegisters, CommandQueue.wait, h2]

/-- C6 witness: a queue already holding "readRegisters" twice refuses a
third admission at maximum 2, and `readRegisters` returns `[]`. -/
theorem queue_saturation_fail_fast_witness :
    countInQueue [some "readRegisters", some "readRegisters"] "readRegisters" ≥ 2 ∧
    CommandQueue.wait ⟨[some "readRegisters", some "readRegisters"], false⟩
      "readRegisters" 2 = none ∧
    ModbusAPI2.readRegisters ⟨[some "readRegisters", some "readRegisters"], false⟩
      true [] [] = ([], ⟨[some "readRegisters", some "readRegisters"], false⟩) :=
  ⟨by decide,
    (queue_saturation_fail_fast _ "readRegisters" 2 (by decide) (by decide) true [] []).1,
    (queue_saturation_fail_fast _ "readRegisters" 2 (by decide) (by decide) true [] []).2⟩

/-- Helper: writing a 16-bit little-endian value at the second-to-last
position of a buffer replaces its last two bytes. -/
theorem writeUInt16LE_last_two (v : Nat) :
    ∀ (n : Nat) (b : List Nat), b.length = n + 2 →
      writeUInt16LE b v n = b.take n ++ [v % 256, v / 256 % 256] := by
  intro n
  induction n with
  | zero =>
    intro b hb
    match b, hb with
    | [c, d], _ => rfl
  | succ m ih =>
    intro b hb
    match b, hb with
    | c :: rest, hb =>
      have hr : rest.length = m + 2 := by simpa using hb
      simp only [writeUInt16LE, List.set_cons_succ, List.take_succ_cons, List.cons_append]
      have := ih rest hr
      simp only [writeUInt16LE] at this
      rw [this]

/-- Helper: `Buffer.copy` into a buffer does not change its length. -/
theorem bufferCopy_length (target src : List Nat) (i : Nat) (h : i ≤ target.length) :
    (bufferCopy target src i).length = target.length := by
  simp [bufferCopy]
  omega

/-- Helper: `Buffer.copy` at `i` leaves the first `m ≤ i` bytes unchanged. -/
theorem take_bufferCopy_of_le (target src : List Nat) (i m : Nat) (hm : m ≤ i)
    (hi : i ≤ target.length) :
    (bufferCopy target src i).take m = target.take m := by
  rw [bufferCopy, List.append_assoc, List.take_append_of_le_length, List.take_take,
    Nat.min_eq_left hm]
  simp
  omega

/-- Helper: `createModbusFrame` fully evaluated: the six header bytes
followed by the little-endian CRC16 over exactly those six bytes. -/
theorem createModbusFrame_explicit (u : Nat) (reg : ModbusRegister) (l c : Nat) :
    SolarmanAPI2.createModbusFrame u reg l c =
      [u % 256, c % 256, reg.address / 256 % 256, reg.address % 256,
          l / 256 % 256, l % 256] ++
        [calculateBufferCRC [u % 256, c % 256, reg.address / 256 % 256,
            reg.address % 256, l / 256 % 256, l % 256] % 256,
          calculateBufferCRC [u % 256, c % 256, reg.address / 256 % 256,
            reg.address % 256, l / 256 % 256, l % 256] / 256 % 256] := rfl

/-- Helper: layout of `createModbusWriteRequest`: the first four bytes are
unit id, function code 16, and the big-endian address, and the frame is its
own CRC body followed by the little-endian CRC16 over that body. -/
theorem createModbusWriteRequest_layout (u dtl : Nat) (enc : Int → List Nat)
    (reg : ModbusRegister) (value : List Nat ⊕ List Int) :
    (SolarmanAPI2.createModbusWriteRequest u dtl enc reg value).take 4 =
        [u % 256, 16, reg.address / 256 % 256, reg.address % 256] ∧
    SolarmanAPI2.createModbusWriteRequest u dtl enc reg value =
      (SolarmanAPI2.createModbusWriteRequest u dtl enc reg value).take
          ((SolarmanAPI2.createModbusWriteRequest u dtl enc reg value).length - 2) ++
        [calculateBufferCRC ((SolarmanAPI2.createModbusWriteRequest u dtl enc reg value).take
            ((SolarmanAPI2.createModbusWriteRequest u dtl enc reg value).length - 2)) % 256,
          calculateBufferCRC ((SolarmanAPI2.createModbusWriteRequest u dtl enc reg value).take
            ((SolarmanAPI2.createModbusWriteRequest u dtl enc reg value).length - 2)) / 256
            % 256] := by
  set dl := (match value with
    | .inl bufferValue => bufferValue.length / 2
    | .inr numbers => numbers.length) with hdl
  set cl := 7 + dtl * dl with hcl
  set src := (match value with
    | .inl bufferValue => bufferValue
    | .inr numbers => (numbers.map enc).flatten) with hsrc
  have hexp : SolarmanAPI2.createModbusWriteRequest u dtl enc reg value =
      writeUInt16LE (bufferCopy (writeUInt8 (writeUInt16BE (writeUInt16BE (writeUInt8
        (writeUInt8 (List.replicate (cl + 2) 0) u 0) 16 1) reg.address 2) dl 4)
        (dl * 2) 6) src 7)
        (calculateBufferCRC ((bufferCopy (writeUInt8 (writeUInt16BE (writeUInt16BE
          (writeUInt8 (writeUInt8 (List.replicate (cl + 2) 0) u 0) 16 1) reg.address 2)
          dl 4) (dl * 2) 6) src 7).take
          ((bufferCopy (writeUInt8 (writeUInt16BE (writeUInt16BE (writeUInt8 (writeUInt8
            (List.replicate (cl + 2) 0) u 0) 16 1) reg.address 2) dl 4) (dl * 2) 6)
            src 7).length - 2)))
        cl := by
    cases value <;> rfl
  rw [hexp]
  set b5 := writeUInt8 (writeUInt16BE (writeUInt16BE (writeUInt8 (writeUInt8
    (List.replicate (cl + 2) 0) u 0) 16 1) reg.address 2) dl 4) (dl * 2) 6 with hb5
  set b6 := bufferCopy b5 src 7 with hb6
  have hb5len : b5.length = cl + 2 := by simp [hb5, writeUInt8, writeUInt16BE]
  have h7 : 7 ≤ b5.length := by rw [hb5len, hcl]; omega
  have hb6len : b6.length = cl + 2 := by rw [hb6, bufferCopy_length _ _ _ h7, hb5len]
  have hsub : b6.length - 2 = cl := by omega
  rw [hsub]
  have htail := writeUInt16LE_last_two (calculateBufferCRC (b6.take cl)) cl b6 hb6len
  rw [htail]
  have hlen1 : (b6.take cl).length = cl := by
    rw [List.length_take, hb6len]; omega
  have hlen2 : (b6.take cl ++ [calculateBufferCRC (b6.take cl) % 256,
      calculateBufferCRC (b6.take cl) / 256 % 256]).length = cl + 2 := by
    rw [List.length_append, hlen1]
    rfl
  have htake_cl : (b6.take cl ++ [calculateBufferCRC (b6.take cl) % 256,
      calculateBufferCRC (b6.take cl) / 256 % 256]).take cl = b6.take cl := by
    rw [List.take_append_of_le_length (le_of_eq hlen1.symm)]
    exact List.take_of_length_le (le_of_eq hlen1)
  constructor
  · rw [List.take_append_of_le_length (by rw [hlen1, hcl]; omega), List.take_take,
      Nat.min_eq_left (by rw [hcl]; omega)]
    rw [hb6, take_bufferCopy_of_le _ _ _ _ (by omega) h7]
    rw [hb5]
    simp only [writeUInt8, writeUInt16BE, List.set_take, List.take_replicate]
    rw [Nat.min_eq_left (by omega)]
    simp [List.replicate_succ, List.set_cons_succ]
  · rw [hlen2]
    have hcl2 : cl + 2 - 2 = cl := by omega
    rw [hcl2, htake_cl]

/-- C8: every Modbus frame the Solarman transport builds starts with the
unit id, then the function code — 0x04 for input-register reads, 0x03 for
holding-register reads, 0x10 for multi-register writes — then the start
address as a big-endian 16-bit value, followed by the count/length field
and any payload, and ends with a 2-byte little-endian CRC16 computed over
every preceding byte of the frame. -/
theorem solarman_frame_layout (unitId : Nat) (register : ModbusRegister)
    (length dataTypeLength : Nat) (encodeValue : Int → List Nat)
    (value : List Nat ⊕ List Int)
    (hu : unitId < 256) (ha : register.address < 65536) (hl : length < 65536) :
    (SolarmanAPI2.createModbusReadRequest unitId register length =
      [unitId, if register.registerType = RegisterType.input then 4 else 3,
          register.address / 256, register.address % 256, length / 256, length % 256] ++
        [calculateBufferCRC [unitId,
            if register.registerType = RegisterType.input then 4 else 3,
            register.address / 256, register.address % 256,
            length / 256, length % 256] % 256,
          calculateBufferCRC [unitId,
            if register.registerType = RegisterType.input then 4 else 3,
            register.address / 256, register.address % 256,
            length / 256, length % 256] / 256 % 256]) ∧
    (SolarmanAPI2.createModbusWriteRequest unitId dataTypeLength encodeValue register
        value).take 4 =
      [unitId, 16, register.address / 256, register.address % 256] ∧
    SolarmanAPI2.createModbusWriteRequest unitId dataTypeLength encodeValue register value =
      (SolarmanAPI2.createModbusWriteRequest unitId dataTypeLength encodeValue register
          value).take
          ((SolarmanAPI2.createModbusWriteRequest unitId dataTypeLength encodeValue register
            value).length - 2) ++
        [calculateBufferCRC ((SolarmanAPI2.createModbusWriteRequest unitId dataTypeLength
            encodeValue register value).take
            ((SolarmanAPI2.createModbusWriteRequest unitId dataTypeLength encodeValue
              register value).length - 2)) % 256,
          calculateBufferCRC ((SolarmanAPI2.createModbusWriteRequest unitId dataTypeLength
            encodeValue register value).take
            ((SolarmanAPI2.createModbusWriteRequest unitId dataTypeLength encodeValue
              register value).length - 2)) / 256 % 256] := by
  have hu256 : unitId % 256 = unitId := Nat.mod_eq_of_lt hu
  have hadiv : register.address / 256 % 256 = register.address / 256 :=
    Nat.mod_eq_of_lt ((Nat.div_lt_iff_lt_mul (by norm_num)).mpr ha)
  have hldiv : length / 256 % 256 = length / 256 :=
    Nat.mod_eq_of_lt ((Nat.div_lt_iff_lt_mul (by norm_num)).mpr hl)
  refine ⟨?_, ?_, (createModbusWriteRequest_layout unitId dataTypeLength encodeValue
    register value).2⟩
  · rw [SolarmanAPI2.createModbusReadRequest]
    split
    next _ =>
      rw [createModbusFrame_explicit unitId register length 4, hu256, hadiv, hldiv]
    next _ =>
      rw [createModbusFrame_explicit unitId register length 3, hu256, hadiv, hldiv]
  · rw [(createModbusWriteRequest_layout unitId dataTypeLength encodeValue
      register value).1, hu256, hadiv]

/-- C8 witness: the layout instantiated for unit id 1, the input register
`cexRegister` (address 1), a 2-word read, and a one-number write encoded to
two zero bytes. -/
theorem solarman_frame_layout_witness :
    (1 : Nat) < 256 ∧ cexRegister.address < 65536 ∧ (2 : Nat) < 65536 ∧
    (SolarmanAPI2.createModbusReadRequest 1 cexRegister 2 =
      [1, if cexRegister.registerType = RegisterType.input then 4 else 3,
          cexRegister.address / 256, cexRegister.address % 256, 2 / 256, 2 % 256] ++
        [calculateBufferCRC [1,
            if cexRegister.registerType = RegisterType.input then 4 else 3,
            cexRegister.address / 256, cexRegister.address % 256,
            2 / 256, 2 % 256] % 256,
          calculateBufferCRC [1,
            if cexRegister.registerType = RegisterType.input then 4 else 3,
            cexRegister.address / 256, cexRegister.address % 256,
            2 / 256, 2 % 256] / 256 % 256]) ∧
    (SolarmanAPI2.createModbusWriteRequest 1 1 (fun _ => [0, 0]) cexRegister
        (Sum.inr [5])).take 4 =
      [1, 16, cexRegister.address / 256, cexRegister.address % 256] ∧
    SolarmanAPI2.createModbusWriteRequest 1 1 (fun _ => [0, 0]) cexRegister
        (Sum.inr [5]) =
      (SolarmanAPI2.createModbusWriteRequest 1 1 (fun _ => [0, 0]) cexRegister
          (Sum.inr [5])).take
          ((SolarmanAPI2.createModbusWriteRequest 1 1 (fun _ => [0, 0]) cexRegister
            (Sum.inr [5])).length - 2) ++
        [calculateBufferCRC ((SolarmanAPI2.createModbusWriteRequest 1 1 (fun _ => [0, 0])
            cexRegister (Sum.inr [5])).take
            ((SolarmanAPI2.createModbusWriteRequest 1 1 (fun _ => [0, 0]) cexRegister
              (Sum.inr [5])).length - 2)) % 256,
          calculateBufferCRC ((SolarmanAPI2.createModbusWriteRequest 1 1 (fun _ => [0, 0])
            cexRegister (Sum.inr [5])).take
            ((SolarmanAPI2.createModbusWriteRequest 1 1 (fun _ => [0, 0]) cexRegister
              (Sum.inr [5])).length - 2)) / 256 % 256] :=
  ⟨by decide, by decide, by decide,
    (solarman_frame_layout 1 cexRegister 2 1 (fun _ => [0, 0]) (Sum.inr [5])
      (by decide) (by decide) (by decide)).1,
    (solarman_frame_layout 1 cexRegister 2 1 (fun _ => [0, 0]) (Sum.inr [5])
      (by decide) (by decide) (by decide)).2.1,
    (solarman_frame_layout 1 cexRegister 2 1 (fun _ => [0, 0]) (Sum.inr [5])
      (by decide) (by decide) (by decide)).2.2⟩

/-- C10: for a `ReadOnly` register, `ModbusAPI2.writeRegisters` and
`ModbusAPI2.writeRegister` return false with an empty effect trace and leave
the queue state untouched — for every validator, so validation is never
consulted, and with no queue wait, no connection and no write request. -/
theorem readonly_write_rejected (register : ModbusRegister)
    (h : register.accessMode = AccessMode.readOnly)
    (validate : Int → RegisterDataType → Bool) (wireOk : Bool) (s : QueueState)
    (values : List WireValue) (value : WireValue) :
    ModbusAPI2.writeRegisters validate wireOk s register values = (false, [], s) ∧
    ModbusAPI2.writeRegister validate wireOk s register value = (false, [], s) := by
  constructor
  · simp [ModbusAPI2.writeRegisters, h]
  · simp [ModbusAPI2.writeRegister, ModbusAPI2.writeRegisters, h]

/-- C7: when `bitIndex + bits.length` exceeds the read buffer's bit width,
both `ModbusAPI2.writeBitsToRegister` and `SolarmanAPI2.writeBitsToRegister`
return false without issuing any write; otherwise ModbusAPI2 issues its
write at byte index `bufferLength - 1 - ⌊bitIndex / 8⌋` with in-byte start
bit `bitIndex % 8`. -/
theorem writeBits_range_and_layout (buf bits : List Nat) (bitIndex : Nat)
    (wireOk : Bool) :
    (bitIndex + bits.length > buf.length * 8 →
      ModbusAPI2.writeBitsToRegister (some buf) wireOk bits bitIndex = (false, none) ∧
      SolarmanAPI2.writeBitsToRegister (some buf) wireOk bits bitIndex = (false, false)) ∧
    (¬ bitIndex + bits.length > buf.length * 8 →
      (ModbusAPI2.writeBitsToRegister (some buf) wireOk bits bitIndex).snd =
        some ((buf.length : Int) - 1 - ((bitIndex / 8 : Nat) : Int), bitIndex % 8)) := by
  constructor
  · intro h
    have h' : buf.length * 8 < bitIndex + bits.length := h
    constructor
    · simp [ModbusAPI2.writeBitsToRegister, h']
    · simp [SolarmanAPI2.writeBitsToRegister, h']
  · intro h
    have h' : ¬ buf.length * 8 < bitIndex + bits.length := by omega
    simp [ModbusAPI2.writeBitsToRegister, h']

/-- C7 witness: on a 2-byte buffer, a 1-bit write at bit 20 fails on both
transports without a write, and a 1-bit write at bit 4 is issued by
ModbusAPI2 at byte index 1, in-byte bit 4. -/
theorem writeBits_range_and_layout_witness :
    ((20 : Nat) + [1].length > [0, 0].length * 8 ∧
      ModbusAPI2.writeBitsToRegister (some [0, 0]) true [1] 20 = (false, none) ∧
      SolarmanAPI2.writeBitsToRegister (some [0, 0]) true [1] 20 = (false, false)) ∧
    (¬ (4 : Nat) + [1].length > [0, 0].length * 8 ∧
      (ModbusAPI2.writeBitsToRegister (some [0, 0]) true [1] 4).snd = some (1, 4)) :=
  ⟨⟨by decide, ((writeBits_range_and_layout [0, 0] [1] 20 true).1 (by decide)).1,
      ((writeBits_range_and_layout [0, 0] [1] 20 true).1 (by decide)).2⟩,
    ⟨by decide, (writeBits_range_and_layout [0, 0] [1] 4 true).2 (by decide)⟩⟩

/-- C9: in both composite Deye timeslot actions the writes are issued in
their fixed order (charge, power, battery, then — for the single-timeslot
action — time); when the step at position k fails and every earlier step
succeeded, exactly the first k+1 steps have been issued, in order, the later
steps are skipped, the action throws (completes `false`), and the already
issued earlier steps remain issued — no rollback. -/
theorem timeslot_actions_abort_on_failure (writeOk : TimeslotWrite → Bool) :
    (∀ k, k < 4 →
      writeOk (timeOfUseSequence.getD k .charge) = false →
      (∀ j, j < k → writeOk (timeOfUseSequence.getD j .charge) = true) →
      DeyeSunXKSG01HP3.setTimeOfUseTimeslotParameters writeOk =
        (timeOfUseSequence.take (k + 1), false)) ∧
    (∀ k, k < 3 →
      writeOk (allTimeslotSequence.getD k .charge) = false →
      (∀ j, j < k → writeOk (allTimeslotSequence.getD j .charge) = true) →
      DeyeSunXKSG01HP3.setAllTimeslotParameters writeOk =
        (allTimeslotSequence.take (k + 1), false)) := by
  constructor
  · intro k hk hfail hearlier
    match k, hk with
    | 0, _ =>
      simp [timeOfUseSequence] at hfail
      simp [DeyeSunXKSG01HP3.setTimeOfUseTimeslotParameters, hfail, timeOfUseSequence]
    | 1, _ =>
      have h0 := hearlier 0 (by omega)
      simp [timeOfUseSequence] at hfail h0
      simp [DeyeSunXKSG01HP3.setTimeOfUseTimeslotParameters, hfail, h0, timeOfUseSequence]
    | 2, _ =>
      have h0 := hearlier 0 (by omega)
      have h1 := hearlier 1 (by omega)
      simp [timeOfUseSequence] at hfail h0 h1
      simp [DeyeSunXKSG01HP3.setTimeOfUseTimeslotParameters, hfail, h0, h1,
        timeOfUseSequence]
    | 3, _ =>
      have h0 := hearlier 0 (by omega)
      have h1 := hearlier 1 (by omega)
      have h2 := hearlier 2 (by omega)
      simp [timeOfUseSequence] at hfail h0 h1 h2
      simp [DeyeSunXKSG01HP3.setTimeOfUseTimeslotParameters, hfail, h0, h1, h2,
        timeOfUseSequence]
  · intro k hk hfail hearlier
    match k, hk with
    | 0, _ =>
      simp [allTimeslotSequence] at hfail
      simp [DeyeSunXKSG01HP3.setAllTimeslotParameters, hfail, allTimeslotSequence]
    | 1, _ =>
      have h0 := hearlier 0 (by omega)
      simp [allTimeslotSequence] at hfail h0
      simp [DeyeSunXKSG01HP3.setAllTimeslotParameters, hfail, h0, allTimeslotSequence]
    | 2, _ =>
      have h0 := hearlier 0 (by omega)
      have h1 := hearlier 1 (by omega)
      simp [allTimeslotSequence] at hfail h0 h1
      simp [DeyeSunXKSG01HP3.setAllTimeslotParameters, hfail, h0, h1,
        allTimeslotSequence]

/-- C9 witness: with charge and power succeeding and battery failing, both
actions issue exactly charge, power, battery and fail. -/
theorem timeslot_actions_abort_on_failure_witness :
    ((2 : Nat) < 4 ∧
      (fun w => decide (w = TimeslotWrite.charge ∨ w = TimeslotWrite.power))
        (timeOfUseSequence.getD 2 .charge) = false ∧
      DeyeSunXKSG01HP3.setTimeOfUseTimeslotParameters
        (fun w => decide (w = TimeslotWrite.charge ∨ w = TimeslotWrite.power)) =
        (timeOfUseSequence.take 3, false)) ∧
    ((2 : Nat) < 3 ∧
      DeyeSunXKSG01HP3.setAllTimeslotParameters
        (fun w => decide (w = TimeslotWrite.charge ∨ w = TimeslotWrite.power)) =
        (allTimeslotSequence.take 3, false)) :=
  ⟨⟨by decide, by decide,
      (timeslot_actions_abort_on_failure
          (fun w => decide (w = TimeslotWrite.charge ∨ w = TimeslotWrite.power))).1
        2 (by decide) (by decide) (by decide)⟩,
    ⟨by decide,
      (timeslot_actions_abort_on_failure
          (fun w => decide (w = TimeslotWrite.charge ∨ w = TimeslotWrite.power))).2
        2 (by decide) (by decide) (by decide)⟩⟩

/-- C10 witness: the read-only `cexRegister` rejects a write of 5 without
effects. -/
theorem readonly_write_rejected_witness :
    cexRegister.accessMode = AccessMode.readOnly ∧
    ModbusAPI2.writeRegisters (fun _ _ => true) true ⟨[], false⟩ cexRegister
      [WireValue.num 5] = (false, [], ⟨[], false⟩) ∧
    ModbusAPI2.writeRegister (fun _ _ => true) true ⟨[], false⟩ cexRegister
      (WireValue.num 5) = (false, [], ⟨[], false⟩) :=
  ⟨rfl,
    (readonly_write_rejected cexRegister rfl (fun _ _ => true) true ⟨[], false⟩
      [WireValue.num 5] (WireValue.num 5)).1,
    (readonly_write_rejected cexRegister rfl (fun _ _ => true) true ⟨[], false⟩
      [WireValue.num 5] (WireValue.num 5)).2⟩

end Blauhoff
